import Mathlib

/-!
Verification of the conditional-averaging / distribution-function pipeline of
`rfea.py` and the file lookup of `fname_tds.py` (AquaDragonTRS/python-lib),
via a shallow embedding into Lean.

Conventions of the embedding:
* numpy float arrays are embedded as `List ℚ` (or as total functions
  `ℕ → ℚ` for the 3-D datasets indexed `(time, step, shot)`), with exact
  rational arithmetic standing in for IEEE doubles;
* `None`-able Python values become `Option`;
* the external lag estimator `fmp.lagtime` (lib/find_multiref_phase.py, not
  part of the sources under review) enters as an explicit function parameter
  `lagf : List ℚ → List ℚ → Option ℤ` returning its `'xlag'` field;
* the external curve fitter `dfunc.bestfit` (which wraps
  `scipy.optimize.curve_fit`, an iterative numerical routine) enters as an
  explicit function parameter `fit : List ℚ → List ℚ → Option (List ℚ)`
  returning the optimal parameter vector `popt` or `None`;
* `scipy`/numpy primitives used by the code (`np.roll`, `np.gradient`,
  `np.argmax`, `np.argmin`, Python slicing `a[k:-k]`) are embedded below as
  faithful list functions.
-/

/-! ## Definitions -/

/-- Python slice `f[a:b]` of a time-indexed signal given as a total function,
as used for `bint[bt1:bt2, step, shot]` and `curr[t1:t2, step, shot]`. -/
def slice1 (f : ℕ → ℚ) (a b : ℕ) : List ℚ :=
  (List.range (b - a)).map fun i => f (a + i)

/-- Embedding of `np.roll(l, s)`: a circular (wrap-around) shift, with
`(np.roll(l, s))[i] = l[(i - s) mod len(l)]`. -/
def pyRoll (l : List ℚ) (s : ℤ) : List ℚ :=
  (List.range l.length).map fun i : ℕ =>
    l.getD ((((i : ℤ) - s) % (l.length : ℤ)).toNat) 0

/-- Embedding of `np.argmax`: the first index attaining the maximum value
(`0` on the empty list, where numpy would raise). -/
def listArgmax (l : List ℚ) : ℕ :=
  (List.range l.length).foldl
    (fun best i => if l.getD best 0 < l.getD i 0 then i else best) 0

/-- Embedding of `np.argmin`: the first index attaining the minimum value
(`0` on the empty list, where numpy would raise). -/
def listArgmin (l : List ℚ) : ℕ :=
  (List.range l.length).foldl
    (fun best i => if l.getD i 0 < l.getD best 0 then i else best) 0

/-- Embedding of the Python slice `l[k:-k]` used by `sgsmooth`
(`l[int(nwindow/2):-int(nwindow/2)]`): empty when `k = 0` (since `l[0:-0]`
is `l[0:0]`), otherwise the elements from position `k` up to `len l - k`. -/
def pyTrim (k : ℕ) (l : List α) : List α :=
  if k = 0 then [] else (l.drop k).take (l.length - 2 * k)

/-- Embedding of `np.gradient` on a 1-D array: one-sided differences at the
two ends, central differences inside. numpy raises on arrays shorter than 2;
the embedding returns a same-length junk list there (never reached by the
claims). -/
def np_gradient (l : List ℚ) : List ℚ :=
  (List.range l.length).map fun i =>
    if i = 0 then l.getD 1 0 - l.getD 0 0
    else if i = l.length - 1 then l.getD (l.length - 1) 0 - l.getD (l.length - 2) 0
    else (l.getD (i + 1) 0 - l.getD (i - 1) 0) / 2

/-! ### Smoothing kernel -/

/-- Modelled from the spec: `tbx.smooth` lives in `lib/toolbox.py`, which is
not among the sources under review.  Per spec section 4.1 it "returns a signal
of the same or reduced length with a centered moving-average (or higher-order
polynomial) filter of odd window size `window`".  The model is the
same-length centered moving average whose window is truncated at the two
array edges. -/
def smoothModel (nwindow : ℕ) (a : List ℚ) : List ℚ :=
  (List.range a.length).map fun i =>
    let lo := i - nwindow / 2
    let hi := min (i + nwindow / 2) (a.length - 1)
    let seg := (a.drop lo).take (hi + 1 - lo)
    seg.sum / seg.length

/-- Embedding of `rfea.rsmooth(data, repeat, nwindow)`: apply the smoothing
kernel `repeat` times (`while repeat > 0: temp = tbx.smooth(temp, ...)`). -/
def rsmooth (data : List ℚ) (reps : ℕ) (nwindow : ℕ) : List ℚ :=
  match reps with
  | 0 => data
  | r + 1 => rsmooth (smoothModel nwindow data) r nwindow

/-! ### Conditional-averaging engine (`data.condavg`, rfea.py lines 252-315)

The inputs of one `condavg` run, with the analysis bounds `t1`/`t2` and the
cross-correlation bounds `bt1`/`bt2` already resolved (the `None`-default
resolution of lines 266-273 is modelled separately by `condavgDefaults`
below), and the reference trace `bref` already selected. -/

structure CAIn where
  lagf : List ℚ → List ℚ → Option ℤ
  bint : ℕ → ℕ → ℕ → ℚ
  curr : ℕ → ℕ → ℕ → ℚ
  t1 : ℕ
  t2 : ℕ
  bt1 : ℕ
  bt2 : ℕ
  nshots : ℕ
  bref : List ℚ

/-- The per-shot correlation signal `bsig = bint[bt1:bt2, step, shot]`. -/
def bsig (c : CAIn) (step shot : ℕ) : List ℚ :=
  slice1 (fun t => c.bint t step shot) c.bt1 c.bt2

/-- The lag `fmp.lagtime(bref, bsig, quiet=1, threshold=0.7)['xlag']` of one
`(step, shot)` pair. -/
def xlag (c : CAIn) (step shot : ℕ) : Option ℤ :=
  c.lagf c.bref (bsig c step shot)

/-- One slot of the phase-shifted current array `curr_arr[:, step, shot]`:
the trace `np.roll(curr[t1:t2, step, shot], -xlag)` when the lag is valid,
and the initial all-zero column when the shot is skipped. -/
def curr_arr (c : CAIn) (step shot : ℕ) : List ℚ :=
  match xlag c step shot with
  | some k => pyRoll (slice1 (fun t => c.curr t step shot) c.t1 c.t2) (-k)
  | none => List.replicate (c.t2 - c.t1) 0

/-- The per-step skip counter `skip_arr[step]` accumulated by the shot loop:
one increment for every shot whose cross-correlation fails. -/
def skip_arr (c : CAIn) (step : ℕ) : ℕ :=
  ((List.range c.nshots).filter fun shot => (xlag c step shot).isNone).length

/-- The per-step count of rejected shots, written as a `Finset` cardinality
(the closed form of the `skip_arr` loop). -/
def rejectedShots (c : CAIn) (step : ℕ) : ℕ :=
  ((Finset.range c.nshots).filter fun shot => xlag c step shot = none).card

/-- The renormalization `factor[step]`: `nshots/(nshots - skip_arr[step])`
when some shot survived, and the initial `0` otherwise (the
"all shots skipped" print branch of lines 307-309). -/
def condavg_factor (c : CAIn) (step : ℕ) : ℚ :=
  if (0 : ℚ) < (c.nshots : ℚ) - (skip_arr c step : ℚ) then
    (c.nshots : ℚ) / ((c.nshots : ℚ) - (skip_arr c step : ℚ))
  else 0

/-- The conditionally averaged current
`mean_condavg_curr = np.mean(curr_arr, axis=2) * factor` at time-pixel `t`
of step `step`. -/
def mean_condavg_curr (c : CAIn) (t step : ℕ) : ℚ :=
  (((List.range c.nshots).map fun shot => (curr_arr c step shot).getD t 0).sum
      / (c.nshots : ℚ)) * condavg_factor c step

/-- Embedding of the whole of `data.condavg` after default resolution: the
reference trace is the explicit `bref` argument if given, else
`bint[bt1:bt2, ref[0], ref[1]]`; the function returns the pair
`(mean_condavg_curr, bref)`. -/
def condavg (lagf : List ℚ → List ℚ → Option ℤ) (bint curr : ℕ → ℕ → ℕ → ℚ)
    (t1 t2 bt1 bt2 nshots : ℕ) (brefIn : Option (List ℚ)) (ref : ℕ × ℕ) :
    (ℕ → ℕ → ℚ) × List ℚ :=
  let bref := brefIn.getD (slice1 (fun t => bint t ref.1 ref.2) bt1 bt2)
  let c : CAIn := ⟨lagf, bint, curr, t1, t2, bt1, bt2, nshots, bref⟩
  (fun t step => mean_condavg_curr c t step, bref)

/-! ### Concrete instances used by witnesses and counterexamples -/

/-- Concrete `condavg` input used by the C1 witness: two shots per step; the
lag estimator accepts (with lag 0) exactly the signals starting at value `0`,
so shot 0 is kept and shot 1 is rejected. -/
def caValid : CAIn :=
  ⟨fun _ b => if b.getD 0 0 = 0 then some 0 else none,
   fun t _ shot => (t : ℚ) + (shot : ℚ),
   fun t _ shot => (t : ℚ) + 10 * (shot : ℚ) + 1,
   0, 2, 0, 2, 2, [0, 1]⟩

/-- Concrete `condavg` input in which the lag estimator rejects every shot
(2 shots per step), while the current data is nonzero everywhere. -/
def caAllRej : CAIn :=
  ⟨fun _ _ => none, fun _ _ _ => 0, fun t _ _ => (t : ℚ) + 1,
   0, 2, 0, 2, 2, []⟩

/-- Concrete `condavg` input in which every shot is accepted with lag 0 but
the current data is identically zero. -/
def caZeroCurr : CAIn :=
  ⟨fun _ _ => some 0, fun _ _ _ => 0, fun _ _ _ => 0,
   0, 2, 0, 2, 2, []⟩

/-- Concrete `condavg` input for the C3 witness: one shot, lag 1, slice
length 3, quadratic current trace. -/
def caRoll : CAIn :=
  ⟨fun _ _ => some 1, fun _ _ _ => 0, fun t _ _ => (t : ℚ) * (t : ℚ),
   0, 3, 0, 3, 1, []⟩

/-- The peak location read off a fit result `popt`: the single-gauss centre
`popt[0]` when `popt[4]` is zero (the one-gauss branch of `bestfit` stores 0
there), else the leftmost of the two centres `min(popt[0], popt[3])`. -/
def fitted_peak (p : List ℚ) : ℚ :=
  if p.getD 4 0 = 0 then p.getD 0 0 else min (p.getD 0 0) (p.getD 3 0)

/-- The candidate splice index derived from the fit:
`arg_test = np.argmin(abs(vLR - pp))`. -/
def arg_test (p : List ℚ) (vLR : List ℚ) : ℕ :=
  listArgmin (vLR.map fun v => |v - fitted_peak p|)

/-- Embedding of `check_popt(popt, grad, vLR)`: default to the raw argmax of
the gradient; when a fit result is present, move to `arg_test` only if
`abs(arg_test - arg)/arg < 0.10`.  The source computes that guard in floats:
for `arg = 0` the division yields `inf` (or `nan` for `0/0`), so the
comparison is false and the raw argmax is kept — hence the explicit
`arg ≠ 0` conjunct; for `arg > 0` the float comparison coincides with the
exact `10 * |arg_test - arg| < arg`. -/
def check_popt (popt : Option (List ℚ)) (grad vLR : List ℚ) : ℕ :=
  let arg := listArgmax grad
  match popt with
  | none => arg
  | some p =>
      let argTest := arg_test p vLR
      if arg ≠ 0 ∧ 10 * (((argTest : ℤ) - (arg : ℤ)).natAbs) < arg then argTest
      else arg

/-- Embedding of `sgsmooth(data, nwindow, repeat)`: x-indices and smoothed
data trimmed by `int(nwindow/2)` samples at each end, plus the negated
gradient. -/
def sgsmooth (data : List ℚ) (nwindow reps : ℕ) : List ℕ × List ℚ × List ℚ :=
  let x := pyTrim (nwindow / 2) (List.range data.length)
  let y := pyTrim (nwindow / 2) (rsmooth data reps nwindow)
  let grad_y := (np_gradient y).map fun v => -v
  (x, y, grad_y)

/-- The gradient curve `gradL`/`gradR` of one side of the joiner. -/
def sg_grad (data : List ℚ) (nwindow reps : ℕ) : List ℚ :=
  (np_gradient (pyTrim (nwindow / 2) (rsmooth data reps nwindow))).map fun v => -v

/-- The trimmed voltage axis `vL = voltL[xL]` of one side of the joiner. -/
def sg_volt (volt data : List ℚ) (nwindow : ℕ) : List ℚ :=
  (pyTrim (nwindow / 2) (List.range data.length)).map fun i => volt.getD i 0

/-- The splice index `argL`/`argR` chosen for one side: `check_popt` applied
to that side's fit result, gradient curve and trimmed voltage axis. -/
def splice_arg (fit : List ℚ → List ℚ → Option (List ℚ))
    (volt data : List ℚ) (nwindow reps : ℕ) : ℕ :=
  check_popt (fit (sg_volt volt data nwindow) (sg_grad data nwindow reps))
    (sg_grad data nwindow reps) (sg_volt volt data nwindow)

/-- Embedding of `join_dfunc.set_dfunc(voltL, voltR, dataL, dataR, dV,
nwindow, nwindowR, order)`, returning `(index, dfLR, vLvR)`.  The
voltage-axis arguments are arrays (the `voltL is None` branch of line 663 is
unreachable for a `None` input, which would already have failed at
`vL = voltL[xL]` on line 617, so the embedding models the array case; the
`dV` parameter of that dead branch is kept for signature fidelity). -/
def set_dfunc (fit : List ℚ → List ℚ → Option (List ℚ))
    (voltL voltR dataL dataR : List ℚ) (dV : ℚ)
    (nwindow : ℕ) (nwindowR : Option ℕ) (order : ℕ) :
    List ℤ × List ℚ × List ℚ :=
  let nwR := nwindowR.getD nwindow
  let gradL := sg_grad dataL nwindow order
  let gradR := sg_grad dataR nwR order
  let vL := sg_volt voltL dataL nwindow
  let vR := sg_volt voltR dataR nwR
  let argL := splice_arg fit voltL dataL nwindow order
  let argR := splice_arg fit voltR dataR nwR order
  let sliceL := gradL.drop argL
  let sliceR := gradR.drop argR
  let factor := gradR.getD argR 0 / gradL.getD argL 0
  let index := (List.range (sliceL.length + sliceR.length)).map
    fun i : ℕ => (i : ℤ) - (sliceL.length : ℤ)
  let dfLR := (sliceL.reverse.map fun v => v * factor) ++ sliceR
  let vL2 := (vL.drop argL).map fun v => v - vL.getD argL 0
  let vR2 := (vR.drop argR).map fun v => v - vR.getD argR 0
  let vLvR := (vL2.map fun v => -v).reverse ++ vR2
  (index, dfLR, vLvR)

/-- Concrete identical one-sided IV curve for the C5 counterexample. -/
def Dc : List ℚ := [144, 121, 100, 81, 64, 49, 36, 25, 16, 9, 4, 1, 0]

/-- Concrete voltage axis for the C5 counterexample. -/
def Vc : List ℚ := [0, 1, 2, 3, 4, 5, 6, 7, 8, 9, 10, 11, 12]

/-- Embedding of `enint(volt, dfunc)`: with
`den  = sum(jj/sqrt(abs(ii))  for ii, jj in zip(volt, dfunc) if ii != 0)` and
`vavg = sum(jj*sqrt(abs(ii)) for ii, jj in zip(volt, dfunc) if ii != 0)`,
return `vavg/den`.  The square root forces the value into `ℝ`; the division
is Lean's total division, mirroring that the source applies no guard to a
zero denominator (numpy produces `inf`/`nan` there, without raising). -/
noncomputable def enint (volt dfunc : List ℚ) : ℝ :=
  let pairs := (volt.zip dfunc).filter fun p => p.1 ≠ 0
  let den := (pairs.map fun p => (p.2 : ℝ) / Real.sqrt |(p.1 : ℝ)|).sum
  let vavg := (pairs.map fun p => (p.2 : ℝ) * Real.sqrt |(p.1 : ℝ)|).sum
  vavg / den

/-- A run identifier: the dict keys of the source are ints or strings. -/
inductive FKey where
  | i (n : ℤ) : FKey
  | s (v : String) : FKey
deriving DecidableEq

/-- Directory constant `dir1` of `fname_tds`. -/
def dir1 : String := "/BAPSF_Data/LaB6_Cathode/HighFreq_FluxRope/"

/-- Directory constant `dir2` of `fname_tds`. -/
def dir2 : String := "/BAPSF_Data/LaB6_Cathode/HighFreq_FluxRope2/"

/-- Directory constant `dir3` of `fname_tds`. -/
def dir3 : String := "/BAPSF_Data/LaB6_Cathode/TDS_FluxRopes/"

/-- Directory constant `dir4` of `fname_tds`. -/
def dir4 : String := "/BAPSF_Data/TDS/May_18/"

/-- Directory constant `dir5` of `fname_tds`. -/
def dir5 : String := "/BAPSF_Data/TDS/18_July/"

/-- Directory constant `dir6` of `fname_tds`. -/
def dir6 : String := "/BAPSF_Data/TDS/18_Nov/"

/-- Directory constant `dir7` of `fname_tds`. -/
def dir7 : String := "/BAPSF_Data/TDS/19_Apr/"

/-- Directory constant `dir8` of `fname_tds`. -/
def dir8 : String := "/BAPSF_Data/TDS/19_July/"

/-- Directory constant `dir9` of `fname_tds`. -/
def dir9 : String := "/BAPSF_Data/TDS/21_Feb/"

/-- Directory constant `dirA` of `fname_tds`. -/
def dirA : String := "/data_old/BAPSF_Data/LaB6_Cathode/FluxRopes_2_14/"

/-- Directory constant `dirS` of `fname_tds`. -/
def dirS : String := "/BAPSF_Data/LaB6_Cathode/Single5cmFluxRope/"

/-- The lookup table `filenames` of `fname_tds`: each entry is
`(callnumber, directory, filename)`. -/
def filenames : List (FKey × String × String) := [
  (FKey.s ("test"), dirS, "I75_V100_Bz330_B24_B45_M35_Plane_2014_05_24_926AM.hdf5"),
  (FKey.i 101, dir1, "Line_NoFR_EBp40_12_15.hdf5"),
  (FKey.i 102, dir1, "Line_EBp40_12_14.hdf5"),
  (FKey.i 103, dir1, "XZ_12_15.hdf5"),
  (FKey.i 104, dir1, "XZ_12_16.hdf5"),
  (FKey.i 105, dir1, "XZ_12_20.hdf5"),
  (FKey.i 106, dir1, "XY_1_3.hdf5"),
  (FKey.i 107, dir1, "XY_1_4.hdf5"),
  (FKey.i 108, dir1, "XY_1_5.hdf5"),
  (FKey.i 109, dir1, "01-Efield-plane-NoFR-p33.hdf5"),
  (FKey.i 110, dir1, "02-Efield-plane-NoFR-p33-330G.hdf5"),
  (FKey.i 201, dir2, "Plane_EP35_B29_May2.hdf5"),
  (FKey.i 202, dir2, "Plane_V32_V33_V35_May4.hdf5"),
  (FKey.i 203, dir2, "Lang_line_port42.hdf5"),
  (FKey.i 301, dir3, "01_Bplane31.hdf5"),
  (FKey.i 303, dir3, "03_Bline31_refprobe.hdf5"),
  (FKey.i 304, dir3, "04_Bplane31_refprobe.hdf5"),
  (FKey.i 306, dir3, "06_Bplane31_refprobe_coherent.hdf5"),
  (FKey.i 305, dir3, "05_BrefprobeTest.hdf5"),
  (FKey.i 307, dir3, "07_TDSpotentialA1_perp_move3.hdf5"),
  (FKey.i 308, dir3, "08_TDSpotentialA1_parallel_Bplane31.hdf5"),
  (FKey.i 309, dir3, "09_TDSpotentialA1_parallel_Bplane31_Isatsweep29.hdf5"),
  (FKey.i 401, dir4, "01_Bdot45_Dipole30_plane.hdf5"),
  (FKey.i 402, dir4, "02a_Dipole30_line.hdf5"),
  (FKey.i 403, dir4, "02b_Dipole30_line_noLaB6.hdf5"),
  (FKey.i 404, dir4, "04_Dipole30_line_varyI_1360A.hdf5"),
  (FKey.i 405, dir4, "05_Dipole30_line_varyI_1215A.hdf5"),
  (FKey.i 406, dir4, "06_Dipole30_line_varyI_1125A.hdf5"),
  (FKey.i 407, dir4, "07_Dipole30_line_varyI_985A.hdf5"),
  (FKey.i 408, dir4, "08_Dipole30_line_varyI_838A.hdf5"),
  (FKey.i 410, dir4, "10_Dipole30_line_varyI_705A.hdf5"),
  (FKey.i 411, dir4, "11_Dipole30_line_varyI_565A.hdf5"),
  (FKey.i 412, dir4, "12_Dipole30_line_varyI_442A.hdf5"),
  (FKey.i 413, dir4, "13_Dipole30_line_varyI_305A.hdf5"),
  (FKey.i 414, dir4, "14_Dipole30_line_varyI_240A.hdf5"),
  (FKey.i 415, dir4, "15_Dipole30_line_varyI_140A.hdf5"),
  (FKey.i 409, dir4, "09_Bdot37_Dipole30_plane.hdf5"),
  (FKey.i 420, dir4, "20_Dipole30_EB27_FR1000G_test.hdf5"),
  (FKey.i 421, dir4, "21_Bdot37_Dipole30_EB27.hdf5"),
  (FKey.i 422, dir4, "22_Dipole30_EB27_FR800G_test.hdf5"),
  (FKey.i 423, dir4, "23_Dipole30_EB27_FR1000G.hdf5"),
  (FKey.i 424, dir4, "24_Dipole30_EB27_FR800G.hdf5"),
  (FKey.i 425, dir4, "25_Bdot37_Dipole30_EB27_FR1000G_plane.hdf5"),
  (FKey.i 426, dir4, "26_Mach32_EB27_FR1000G_bank200V.hdf5"),
  (FKey.i 427, dir4, "27_Mach32_EB27_FR1000G_bank175V.hdf5"),
  (FKey.i 428, dir4, "28_Mach32_EB27_FR1000G_bank150V.hdf5"),
  (FKey.i 429, dir4, "29_Mach32_EB27_FR1000G_bank125V.hdf5"),
  (FKey.i 430, dir4, "30_Mach32_EB27_FR1000G_bank100V.hdf5"),
  (FKey.i 431, dir4, "31_Mach32_EB27_FR1000G_bank75V.hdf5"),
  (FKey.i 432, dir4, "32_Mach32_EB27_FR1000G_bank150V(restart).hdf5"),
  (FKey.i 433, dir4, "33_Mach32_EB27_FR1000G_bank175V(restart).hdf5"),
  (FKey.i 434, dir4, "34_Bdot37_Mach32_EB27_FR800G_bank200V.hdf5"),
  (FKey.i 436, dir4, "36_Bdot37_Mach32_EB27_FR500G_bank200V_planeII.hdf5"),
  (FKey.i 435, dir4, "35_Bdot37_Mach32_EB27_FR500G_bank200V.hdf5"),
  (FKey.i 437, dir5, "A1_amplifier_test 2018-07-18.hdf5"),
  (FKey.i 438, dir5, "A2_amplifier_test 2018-07-18.hdf5"),
  (FKey.i 440, dir5, "01_Bmov35_41_45_Bfix30_32 2018-07-07.hdf5"),
  (FKey.i 441, dir5, "02_Bmov33_41_43_Bfix30_32 2018-07-09.hdf5"),
  (FKey.i 442, dir5, "03_Bmov29_37_Bfix30_32 2018-07-10.hdf5"),
  (FKey.i 443, dir5, "04_Bmov29_37_39_Bfix30_32 2018-07-17.hdf5"),
  (FKey.i 444, dir5, "05_Bmov19_25_27_Bfix30_32 2018-07-18.hdf5"),
  (FKey.i 450, dir5, "11_EB34_Bmov27_1000G_940A.hdf5"),
  (FKey.i 451, dir5, "12_EB34_Bmov27_800G_770A.hdf5"),
  (FKey.i 452, dir5, "13_EB34_Bmov27_600G_470A.hdf5"),
  (FKey.i 453, dir5, "14_EB34_Bmov27_400G_395A.hdf5"),
  (FKey.i 454, dir5, "15_EB34_Bmov27_1000G_940A_plane.hdf5"),
  (FKey.i 455, dir5, "16_EB34_Bmov27_1000G_725A.hdf5"),
  (FKey.i 456, dir5, "17_EB34_Bmov27_1000G_475A.hdf5"),
  (FKey.i 501, dir6, "01_Bmov_40_37_Vfloat_34.hdf5"),
  (FKey.i 502, dir6, "02_Bmov_40_37_Vfloat_34.hdf5"),
  (FKey.i 503, dir6, "03_Bmov_45_37_Vfloat_34_short.hdf5"),
  (FKey.i 504, dir6, "03b_Bmov_45_37_Vfloat_34_short.hdf5"),
  (FKey.i 505, dir6, "04_Bmov_45_37_Vfloat_34.hdf5"),
  (FKey.i 506, dir6, "05_Bmov27_EB31.hdf5"),
  (FKey.i 507, dir6, "06_Bmov27_EB31_short.hdf5"),
  (FKey.i 510, dir6, "10_line_Bmov27_EB31_1290A_2018-11-20_16.45.23.hdf5"),
  (FKey.i 511, dir6, "11_line_Bmov27_EB31_1440A_2018-11-20_17.23.45.hdf5"),
  (FKey.i 512, dir6, "12_line_Bmov27_EB31_900A_2018-11-20_18.53.36.hdf5"),
  (FKey.i 513, dir6, "13_line_Bmov27_EB31_540A_2018-11-20_19.40.46.hdf5"),
  (FKey.i 521, dir6, "21_line_Bmov27_EB31_1440A_2018-11-20_18.10.25.hdf5"),
  (FKey.i 530, dir6, "30_Bmov_33_27_EB31_2018-11-20_21.44.33.hdf5"),
  (FKey.i 531, dir6, "31_Bmov_33_27_EB31_short_2018-11-21_14.20.28.hdf5"),
  (FKey.i 532, dir6, "32_Bmov_33_27_EB31_1010A_2018-11-21_18.00.40.hdf5"),
  (FKey.i 533, dir6, "33_Bmov_33_27_EB31_610A_2018-11-22_13.07.49.hdf5"),
  (FKey.i 551, dir7, "01_Bmov_43_31.hdf5"),
  (FKey.i 552, dir7, "02_Bmov_43_31_line.hdf5"),
  (FKey.i 553, dir7, "03_Bmov_43_31_line_2.hdf5"),
  (FKey.i 554, dir7, "04_TDSdipole38_37_XZ.hdf5"),
  (FKey.i 555, dir7, "05_Bmov_43(2).hdf5"),
  (FKey.i 556, dir7, "06_TDSdipole38_37_XYZ.hdf5"),
  (FKey.i 557, dir7, "07_TDSdipole38_37_XYZ_1kG.hdf5"),
  (FKey.i 558, dir7, "08_Bmov_43_31.hdf5"),
  (FKey.i 559, dir7, "09_TDSdipole38_37_XYZ_500G.hdf5"),
  (FKey.i 560, dir7, "10_Bmov_43_line.hdf5"),
  (FKey.i 561, dir7, "11_Bmov_43_31_500G.hdf5"),
  (FKey.i 562, dir7, "12_TDSdipole38_37_XYZ_500G_lite.hdf5"),
  (FKey.i 563, dir7, "13_Bmov_43_31_500G_lite_restart.hdf5"),
  (FKey.i 601, dir8, "01_Bmov33_39_Bfix32_41.hdf5"),
  (FKey.i 602, dir8, "02_Bmov31_37_Bfix32_42.hdf5"),
  (FKey.i 603, dir8, "03_Bmov29_31_Bfix32_42.hdf5"),
  (FKey.s ("603a"), dir8, "03_amplifier pickup.hdf5"),
  (FKey.i 604, dir8, "04_Bmov35_37_Bfix32_42.hdf5"),
  (FKey.s ("604a"), dir8, "04_amplifier pickup.hdf5"),
  (FKey.i 605, dir8, "05_Bmov41_45_Bfix32_42.hdf5"),
  (FKey.i 606, dir8, "06_Bmov27_43_Bfix32_42.hdf5"),
  (FKey.s ("606a"), dir8, "06_amplifier pickup.hdf5"),
  (FKey.i 607, dir8, "07_Bmov25_31_Bfix32_42.hdf5"),
  (FKey.i 621, dir8, "21_Mach35_41_Bfix32_41.hdf5"),
  (FKey.i 622, dir8, "22_Mach33_39_Bfix32_42.hdf5"),
  (FKey.i 623, dir8, "23_Mach31_37_Bfix32_42.hdf5"),
  (FKey.i 624, dir8, "24_Mach29_45_Bfix32_42.hdf5"),
  (FKey.i 625, dir8, "25_Mach27_43_Bmov31_Bfix32_42_aborted.hdf5"),
  (FKey.i 700, dir9, "00_get_SIScrate_offsets.hdf5"),
  (FKey.i 701, dir9, "01_newLaB6_intialize.hdf5"),
  (FKey.i 702, dir9, "02_fluxrope_100V_Isat34_Bdot37.hdf5"),
  (FKey.i 703, dir9, "03_fluxrope_80V_Isat34_Bdot37.hdf5"),
  (FKey.s ("704a"), dir9, "04a_fluxrope_120V_Bdot37.hdf5"),
  (FKey.i 704, dir9, "04_fluxrope_120V_Isat34_Bdot37.hdf5"),
  (FKey.s ("705a"), dir9, "05a_fluxrope_120V_Bdot31.hdf5"),
  (FKey.s ("705b"), dir9, "05b_fluxrope_70V_Bdot31.hdf5"),
  (FKey.s ("705c"), dir9, "05c_fluxrope_80V_Bdot31.hdf5"),
  (FKey.s ("705d"), dir9, "05d_fluxrope_90V_Bdot31.hdf5"),
  (FKey.s ("705e"), dir9, "05e_fluxrope_100V_Bdot31.hdf5"),
  (FKey.s ("705f"), dir9, "05f_fluxrope_110V_Bdot31.hdf5"),
  (FKey.s ("705g"), dir9, "05g_fluxrope_130V_Bdot31.hdf5"),
  (FKey.s ("705h"), dir9, "05h_fluxrope_140V_Bdot31.hdf5"),
  (FKey.i 706, dir9, "06_fluxrope_140V_Bdot37.hdf5"),
  (FKey.i 707, dir9, "07_fluxrope_120V_Bdot45.hdf5"),
  (FKey.i 710, dir9, "10_fluxrope_120V_RFEA34.hdf5"),
  (FKey.i 711, dir9, "11_fluxrope_120V_RFEA34.hdf5"),
  (FKey.i 712, dir9, "12_fluxrope_120V_RFEA34.hdf5"),
  (FKey.i 713, dir9, "13_fluxrope_120V_RFEA34.hdf5"),
  (FKey.i 714, dir9, "14_fluxrope_120V_RFEA34_up.hdf5"),
  (FKey.i 715, dir9, "15_fluxrope_120V_RFEA34_down.hdf5"),
  (FKey.i 716, dir9, "16_fluxrope_120V_RFEA34_NE.hdf5"),
  (FKey.i 717, dir9, "17_fluxrope_120V_RFEA34_NW.hdf5"),
  (FKey.i 719, dir9, "19_fluxrope_120V_RFEA34_SW.hdf5"),
  (FKey.s ("720b"), dir9, "20_fluxrope_120V_RFEA34_line_posy (stopped).hdf5"),
  (FKey.i 720, dir9, "20_fluxrope_120V_RFEA34_line_posy.hdf5"),
  (FKey.i 721, dir9, "21_fluxrope_120V_RFEA34_line_negy.hdf5"),
  (FKey.i 722, dir9, "22_fluxrope_120V_RFEA34_line_posx.hdf5"),
  (FKey.s ("723b"), dir9, "23_fluxrope_120V_RFEA34_line_negx (stopped).hdf5"),
  (FKey.i 723, dir9, "23_fluxrope_120V_RFEA34_line_negx.hdf5"),
  (FKey.i 724, dir9, "24_fluxrope_120V_RFEA34_plane_600mV.hdf5"),
  (FKey.i 725, dir9, "25_fluxrope_120V_RFEA34_plane_700mV.hdf5"),
  (FKey.i 726, dir9, "26_fluxrope_120V_RFEA34_plane_500mV.hdf5"),
  (FKey.i 727, dir9, "27_fluxrope_120V_RFEA34_plane_550mV (stopped).hdf5"),
  (FKey.i 728, dir9, "28_fluxrope_120V_RFEA34_plane_650mV.hdf5"),
  (FKey.i 729, dir9, "29_fluxrope_80V_RFEA34.hdf5"),
  (FKey.i 730, dir9, "30_fluxrope_80V_RFEA34_plane_525mV.hdf5"),
  (FKey.i 731, dir9, "31_fluxrope_80V_RFEA34_2point.hdf5"),
  (FKey.s ("732b"), dir9, "32_fluxrope_120V_RFEA45 (stopped).hdf5"),
  (FKey.i 732, dir9, "32_fluxrope_120V_RFEA45_restart.hdf5"),
  (FKey.i 733, dir9, "33_fluxrope_120V_RFEA45_edge_2point.hdf5"),
  (FKey.i 734, dir9, "34_fluxrope_120V_dipole34_plane.hdf5"),
  (FKey.i 735, dir9, "35_fluxrope_120V_RFEA45_2point.hdf5"),
  (FKey.i 736, dir9, "36_fluxrope_120V_RFEA45_plane_600mV.hdf5"),
  (FKey.i 741, dir9, "41_fluxrope_Bmov35_Bfix25_line.hdf5"),
  (FKey.i 742, dir9, "42_fluxrope_Bmov35_Bfix25_plane.hdf5"),
  (FKey.i 743, dir9, "43_fluxrope_Bmov35_Bfix25_line.hdf5"),
  (FKey.i 744, dir9, "44_fluxrope_Bmov43_Bfix25_line.hdf5"),
  (FKey.s ("745a"), dir9, "45_fluxrope_Bmov43_Bfix25_plane_1of6.hdf5"),
  (FKey.s ("745b"), dir9, "45_fluxrope_Bmov43_Bfix25_plane_2of6.hdf5"),
  (FKey.s ("745c"), dir9, "45_fluxrope_Bmov43_Bfix25_plane_3of6.hdf5"),
  (FKey.s ("745d"), dir9, "45_fluxrope_Bmov43_Bfix25_plane_4of6.hdf5"),
  (FKey.s ("745e"), dir9, "45_fluxrope_Bmov43_Bfix25_plane_5of6.hdf5"),
  (FKey.s ("745f"), dir9, "45_fluxrope_Bmov43_Bfix25_plane_6of6.hdf5"),
  (FKey.i 746, dir9, "46_fluxrope_RFEA30.hdf5"),
  (FKey.i 747, dir9, "47_fluxrope_RFEA30.hdf5"),
  (FKey.i 748, dir9, "48_fluxrope_RFEA30_Bmov38_Bfix25.hdf5"),
  (FKey.s ("749a"), dir9, "49_fluxrope_RFEA30_Bfix38_Bmov25_1of2.hdf5"),
  (FKey.s ("749b"), dir9, "49_fluxrope_RFEA30_Bfix38_Bmov25_2of2.hdf5"),
  (FKey.i 750, dir9, "50_fluxrope_RFEA30_Bfix38_Bmov19.hdf5"),
  (FKey.s ("A01"), dirA, "Emissive_probe_setup 2014-01-30 17.33.32.hdf5"),
  (FKey.s ("A02"), dirA, "Emissive_probe_setup.hdf5"),
  (FKey.s ("A03"), dirA, "xline_HotSweeps_p19.hdf5"),
  (FKey.s ("A04"), dirA, "xline_ColdSweeps_p44.hdf5"),
  (FKey.s ("A05"), dirA, "xline_ColdSweeps_p19.hdf5"),
  (FKey.s ("A06"), dirA, "xline_HotSweeps_p44.hdf5"),
  (FKey.s ("A10"), dirA, "Plane_Bp40_Ep30_51x51.hdf5"),
  (FKey.s ("A11"), dirA, "Plane_Bp36_Ep31.hdf5"),
  (FKey.s ("A12"), dirA, "Plane_Bp34_Ep32.hdf5"),
  (FKey.s ("A13"), dirA, "Plane_Bp30_Ep33.hdf5"),
  (FKey.s ("A14"), dirA, "Plane_Bp28_Ep33.hdf5"),
  (FKey.s ("A15"), dirA, "Plane_Bp24_Ep34.hdf5"),
  (FKey.s ("A16"), dirA, "Plane_Bp42_Ep27.hdf5"),
  (FKey.s ("A17"), dirA, "Plane_Bp22_Ep19.hdf5"),
  (FKey.s ("A18"), dirA, "Plane_Bp20_Ep44.hdf5"),
  (FKey.s ("A19"), dirA, "Plane_Ep28.hdf5"),
  (FKey.s ("A20"), dirA, "Plane_Bp26_Ep29.hdf5")
]

/-- Embedding of `fname_tds(callnumber, full=1, old=0)`.  The hostname read
from `socket.gethostname()` is an external input and enters as the `host`
parameter.  The source tests `filenames.get(callnumber, '') != ''` — since no
stored value is the empty string this is exactly a key-presence test, here a
`find?` over the table; on a hit it unpacks `[subdir, fname]` and returns
`fname` alone (`full == 0`), `subdir + fname` for the old datarun directory
`dirA`, or `datafolder + subdir + fname`; on a miss it prints
"Error: File not found." and implicitly returns `None`. -/
def fname_tds (host : String) (callnumber : FKey) (full old : ℕ) :
    Option String :=
  let datafolder :=
    if host = "midas" then (if old = 1 then "/data_old" else "/data")
    else (if old = 1 then "/data" else "/data_new")
  match filenames.find? (fun e => e.1 = callnumber) with
  | some e =>
      if full = 0 then some e.2.2
      else if e.2.1 = dirA then some (e.2.1 ++ e.2.2)
      else some (datafolder ++ e.2.1 ++ e.2.2)
  | none => none

structure params where
  fid : ℤ
  fname : Option String
  nsteps : ℕ
  nshots : ℕ
  res : ℚ
  ch_volt : ℕ
  ch_curr : ℕ
  ch_bdot : Option ℕ
  f_bint : ℕ
  volt : Option (List ℚ)
  time : Option (List ℚ)
  xpos : Option (List ℚ)
  ypos : Option (List ℚ)
  tarr : Option (List ℚ)
  nt : Option ℕ
  dt : Option ℚ
  t1 : Option ℤ
  t2 : Option ℤ
  bt1 : Option ℤ
  bt2 : Option ℤ

def optSet (new old : Option ℤ) : Option ℤ :=
  match new with
  | some v => some v
  | none => old

def set_time (p : params) (t1 t2 bt1 bt2 : Option ℤ) : params :=
  { p with
    t1 := optSet t1 p.t1
    t2 := optSet t2 p.t2
    bt1 := optSet bt1 p.bt1
    bt2 := optSet bt2 p.bt2 }

def condavgDefaults (p : params) (currLen : ℕ) : params :=
  let p1 := if p.t1 = none ∧ p.t2 = none then
      { p with t1 := some 0, t2 := some (currLen : ℤ) } else p
  if p1.bt1 = none ∧ p1.bt2 = none then
      { p1 with bt1 := p1.t1, bt2 := p1.t2 } else p1

def paramsW : params :=
  ⟨7, none, 3, 5, 9/2, 0, 3, none, 0, none, none, none, none, none, none,
   none, some 10, some 20, none, none⟩

/-! ## Theorems -/

/-! ### Helper lemmas -/

theorem list_sum_map_range (f : ℕ → ℚ) (n : ℕ) :
    ((List.range n).map f).sum = ∑ i ∈ Finset.range n, f i := by
  induction n with
  | zero => simp
  | succ n ih =>
      rw [List.range_succ, List.map_append, List.sum_append,
        Finset.sum_range_succ, ih]
      simp

theorem skip_arr_eq_rejectedShots (c : CAIn) (step : ℕ) :
    skip_arr c step = rejectedShots c step := by
  unfold skip_arr rejectedShots
  induction c.nshots with
  | zero => simp
  | succ n ih =>
      rw [List.range_succ, List.filter_append, List.length_append,
        Finset.range_succ, Finset.filter_insert]
      by_cases h : xlag c step n = none
      · rw [if_pos h, Finset.card_insert_of_not_mem (by simp), ← ih]
        have hone : (List.filter (fun shot => (xlag c step shot).isNone) [n]).length = 1 := by
          simp [List.filter_cons, h]
        omega
      · rw [if_neg h, ← ih]
        have hzero : (List.filter (fun shot => (xlag c step shot).isNone) [n]).length = 0 := by
          simp [List.filter_cons, Option.isNone_iff_eq_none, h]
        omega

theorem list_getD_map_range (f : ℕ → ℚ) (n j : ℕ) (h : j < n) :
    (((List.range n).map f).getD j 0) = f j := by
  rw [List.getD_eq_getElem?_getD, List.getElem?_map, List.getElem?_range h]
  rfl

theorem slice1_getD (f : ℕ → ℚ) (a b j : ℕ) (h : j < b - a) :
    (slice1 f a b).getD j 0 = f (a + j) :=
  list_getD_map_range _ _ _ h

theorem slice1_length (f : ℕ → ℚ) (a b : ℕ) : (slice1 f a b).length = b - a := by
  simp [slice1]

theorem pyRoll_getD (l : List ℚ) (s : ℤ) (i : ℕ) (h : i < l.length) :
    (pyRoll l s).getD i 0 = l.getD ((((i : ℤ) - s) % (l.length : ℤ)).toNat) 0 := by
  unfold pyRoll
  exact list_getD_map_range _ _ _ h

/-! ### Claim theorems for the conditional-averaging engine -/

/-- C1: for every dataset and every step in which at least one shot has a
valid lag, the conditionally averaged current returned by `condavg` for that
step equals the mean over the shot axis of the per-shot current array (each
valid shot holding its aligned trace, each rejected shot an all-zero trace),
multiplied by `nshots / (nshots - rejectedShots)` for that step. -/
theorem condavg_step_mean (c : CAIn) (t step : ℕ)
    (hvalid : rejectedShots c step < c.nshots) :
    mean_condavg_curr c t step =
      ((∑ shot ∈ Finset.range c.nshots, (curr_arr c step shot).getD t 0)
          / (c.nshots : ℚ))
        * ((c.nshots : ℚ) / ((c.nshots : ℚ) - (rejectedShots c step : ℚ))) := by
  have hskip : skip_arr c step = rejectedShots c step :=
    skip_arr_eq_rejectedShots c step
  unfold mean_condavg_curr condavg_factor
  rw [hskip, list_sum_map_range]
  rw [if_pos]
  have h1 : (rejectedShots c step : ℚ) < (c.nshots : ℚ) := by
    exact_mod_cast hvalid
  linarith

/-- Witness for C1 at a concrete two-shot input: shot 0 aligns with lag 0 and
shot 1 is rejected, so the step mean is the shot-axis mean times `2/(2-1)`. -/
theorem condavg_step_mean_witness :
    rejectedShots caValid 0 < 2 ∧
      mean_condavg_curr caValid 0 0 =
      ((∑ shot ∈ Finset.range 2, (curr_arr caValid 0 shot).getD 0 0) / (2 : ℚ))
        * ((2 : ℚ) / ((2 : ℚ) - (rejectedShots caValid 0 : ℚ))) := by
  have h0 : xlag caValid 0 0 = some 0 := by
    norm_num [xlag, bsig, slice1, caValid, List.range_succ]
  have h1 : xlag caValid 0 1 = none := by
    norm_num [xlag, bsig, slice1, caValid, List.range_succ]
  have hn : caValid.nshots = 2 := rfl
  have h : rejectedShots caValid 0 = 1 := by
    rw [rejectedShots, hn]
    simp [Finset.range_succ, Finset.filter_insert, Finset.filter_singleton,
      h0, h1]
  exact ⟨by omega, condavg_step_mean caValid 0 0 (by omega)⟩

/-- C2 counterexample: at a concrete input on which every shot of step 0 is
rejected, `condavg` produces `factor = 0` and an all-zero averaged trace for
that step — bitwise identical to the honest output of a run with no
rejections and genuinely zero currents, although the rejected run's input
currents are nonzero.  The returned value `(mean_condavg_curr, bref)` carries
no flag for the step: the "all shots rejected" condition is only printed,
i.e. the result is a silent zero, contradicting the claim. -/
theorem condavg_all_rejected_silent_zero :
    condavg_factor caAllRej 0 = 0 ∧
    mean_condavg_curr caAllRej 0 0 = 0 ∧
    mean_condavg_curr caAllRej 1 0 = 0 ∧
    mean_condavg_curr caAllRej 0 0 = mean_condavg_curr caZeroCurr 0 0 ∧
    mean_condavg_curr caAllRej 1 0 = mean_condavg_curr caZeroCurr 1 0 ∧
    caAllRej.curr 0 0 0 ≠ 0 ∧ caAllRej.curr 1 0 0 ≠ 0 := by
  norm_num [mean_condavg_curr, condavg_factor, skip_arr, curr_arr, xlag,
    bsig, slice1, pyRoll, caAllRej, caZeroCurr, List.range_succ,
    List.filter_cons]

/-- C2 amended: when every shot of a step is rejected, `condavg` leaves that
step's renormalization factor at `0`, so the step's averaged trace is an
all-zero trace (no exception, no division by zero, no NaN); the remaining
steps are unaffected and the run completes. -/
theorem condavg_all_rejected_zero (c : CAIn) (t step : ℕ)
    (h : skip_arr c step = c.nshots) :
    condavg_factor c step = 0 ∧ mean_condavg_curr c t step = 0 := by
  have hf : condavg_factor c step = 0 := by
    unfold condavg_factor
    rw [h, if_neg]
    simp
  refine ⟨hf, ?_⟩
  unfold mean_condavg_curr
  rw [hf, mul_zero]

/-- Witness for the amended C2 at the concrete all-rejected input. -/
theorem condavg_all_rejected_zero_witness :
    skip_arr caAllRej 0 = caAllRej.nshots ∧
    condavg_factor caAllRej 0 = 0 ∧ mean_condavg_curr caAllRej 0 0 = 0 := by
  have h : skip_arr caAllRej 0 = caAllRej.nshots := by
    norm_num [skip_arr, xlag, caAllRej, List.range_succ, List.filter_cons]
  exact ⟨h, condavg_all_rejected_zero caAllRej 0 0 h⟩

/-- C3: for every `(step, shot)` pair with a valid lag `k`, the trace stored
by `condavg` is the shot's current slice circularly shifted by `-k`: sample
`t` of the stored trace is the input current at time-pixel
`t1 + ((t + k) mod (t2 - t1))` — samples shifted past one end reappear at the
opposite end (wrap-around), never a zero-padded shift. -/
theorem condavg_valid_shot_circular (c : CAIn) (step shot : ℕ) (k : ℤ)
    (h : xlag c step shot = some k) (t : ℕ) (ht : t < c.t2 - c.t1) :
    (curr_arr c step shot).getD t 0
      = c.curr (c.t1 + ((((t : ℤ) + k) % ((c.t2 - c.t1 : ℕ) : ℤ)).toNat))
          step shot := by
  rw [show curr_arr c step shot
        = pyRoll (slice1 (fun u => c.curr u step shot) c.t1 c.t2) (-k) from by
      unfold curr_arr
      rw [h]]
  have hlen : (slice1 (fun u => c.curr u step shot) c.t1 c.t2).length
      = c.t2 - c.t1 := slice1_length _ _ _
  rw [pyRoll_getD _ _ _ (by rw [hlen]; exact ht), hlen]
  have hsub : ((t : ℤ) - -k) = (t : ℤ) + k := by ring
  rw [hsub]
  have hn : (0 : ℤ) < ((c.t2 - c.t1 : ℕ) : ℤ) := by
    have : 0 < c.t2 - c.t1 := by omega
    exact_mod_cast this
  have hmod0 : 0 ≤ ((t : ℤ) + k) % ((c.t2 - c.t1 : ℕ) : ℤ) :=
    Int.emod_nonneg _ (by omega)
  have hmodlt : ((t : ℤ) + k) % ((c.t2 - c.t1 : ℕ) : ℤ)
      < ((c.t2 - c.t1 : ℕ) : ℤ) := Int.emod_lt_of_pos _ hn
  have hlt : ((((t : ℤ) + k) % ((c.t2 - c.t1 : ℕ) : ℤ)).toNat) < c.t2 - c.t1 := by
    omega
  exact slice1_getD _ _ _ _ hlt

/-- Witness for C3: at the concrete input, sample 2 of the stored trace
wraps around to input time-pixel `(2 + 1) mod 3 = 0`. -/
theorem condavg_valid_shot_circular_witness :
    xlag caRoll 0 0 = some 1 ∧ 2 < caRoll.t2 - caRoll.t1 ∧
    (curr_arr caRoll 0 0).getD 2 0
      = caRoll.curr
          (caRoll.t1 + (((((2 : ℕ) : ℤ)) + 1) % ((caRoll.t2 - caRoll.t1 : ℕ) : ℤ)).toNat)
          0 0 :=
  ⟨rfl, by decide,
    condavg_valid_shot_circular caRoll 0 0 1 rfl 2 (by decide)⟩

/-! ### Dual-probe distribution-function joiner
(`join_dfunc.set_dfunc` with its inner `check_popt`, rfea.py lines 600-670) -/

/-- C4: the splice index chosen by `check_popt` is the raw argmax of the
gradient whenever the fit returned `None` or the fractional disagreement
`|arg_test - arg| / arg` exceeds 10% (including the degenerate `arg = 0`
cases, where the float guard evaluates to `inf`/`nan`); the fitted index is
used only when a fit is present and the disagreement is strictly below 10%. -/
theorem check_popt_fallback (popt : Option (List ℚ)) (grad vLR : List ℚ)
    (_hg : grad ≠ []) (_hv : vLR ≠ []) :
    (popt = none → check_popt popt grad vLR = listArgmax grad) ∧
    (∀ p, popt = some p →
      listArgmax grad < 10 * (((arg_test p vLR : ℤ) - (listArgmax grad : ℤ)).natAbs) →
      check_popt popt grad vLR = listArgmax grad) ∧
    (check_popt popt grad vLR ≠ listArgmax grad →
      ∃ p, popt = some p ∧ check_popt popt grad vLR = arg_test p vLR ∧
        10 * (((arg_test p vLR : ℤ) - (listArgmax grad : ℤ)).natAbs)
          < listArgmax grad) := by
  refine ⟨?_, ?_, ?_⟩
  · intro h
    rw [h]
    rfl
  · intro p hp hfar
    subst hp
    simp only [check_popt]
    rw [if_neg]
    rintro ⟨-, hnear⟩
    omega
  · intro hne
    match hpopt : popt with
    | none => exact absurd rfl hne
    | some p =>
        simp only [check_popt] at hne ⊢
        by_cases hc : listArgmax grad ≠ 0 ∧
            10 * (((arg_test p vLR : ℤ) - (listArgmax grad : ℤ)).natAbs)
              < listArgmax grad
        · rw [if_pos hc] at hne ⊢
          exact ⟨p, rfl, rfl, hc.2⟩
        · rw [if_neg hc] at hne
          exact absurd rfl hne

/-- Witness for C4: with no fit result on a concrete two-point gradient
curve, `check_popt` returns the raw argmax. -/
theorem check_popt_fallback_witness :
    check_popt none [(1 : ℚ), 2] [(0 : ℚ)] = listArgmax [(1 : ℚ), 2] :=
  (check_popt_fallback none [(1 : ℚ), 2] [(0 : ℚ)] (by decide) (by decide)).1 rfl

/-- C5 amended: splicing two identical one-sided curves yields a
distribution function that is a palindrome — the value at signed index
`-(k+1)` equals the value at signed index `k`, i.e. the curve is mirror
symmetric about the join between indices `-1` and `0` (not about index `0`:
the splice sample is stored twice, once on each side). -/
theorem set_dfunc_mirror_palindrome (fit : List ℚ → List ℚ → Option (List ℚ))
    (V D : List ℚ) (dV : ℚ) (nw ord : ℕ)
    (h : (sg_grad D nw ord).getD (splice_arg fit V D nw ord) 0 ≠ 0) :
    ((set_dfunc fit V V D D dV nw none ord).2.1).reverse
      = (set_dfunc fit V V D D dV nw none ord).2.1 := by
  simp only [set_dfunc, Option.getD_none]
  rw [div_self h]
  simp [List.reverse_append, List.reverse_reverse]

/-- Witness for the amended C5 at a concrete input (`nwindow = 3`,
`order = 0`): the gradient value at the splice index is nonzero and the
joined distribution function is reversal invariant. -/
theorem set_dfunc_mirror_palindrome_witness :
    (sg_grad [(4 : ℚ), 3, 1, 0] 3 0).getD
        (splice_arg (fun _ _ => none) [(0 : ℚ), 1, 2, 3] [(4 : ℚ), 3, 1, 0] 3 0) 0 ≠ 0 ∧
    ((set_dfunc (fun _ _ => none) [(0 : ℚ), 1, 2, 3] [(0 : ℚ), 1, 2, 3]
        [(4 : ℚ), 3, 1, 0] [(4 : ℚ), 3, 1, 0] 1 3 none 0).2.1).reverse
      = (set_dfunc (fun _ _ => none) [(0 : ℚ), 1, 2, 3] [(0 : ℚ), 1, 2, 3]
        [(4 : ℚ), 3, 1, 0] [(4 : ℚ), 3, 1, 0] 1 3 none 0).2.1 := by
  have h : (sg_grad [(4 : ℚ), 3, 1, 0] 3 0).getD
      (splice_arg (fun _ _ => none) [(0 : ℚ), 1, 2, 3] [(4 : ℚ), 3, 1, 0] 3 0) 0 ≠ 0 := by
    norm_num [sg_grad, splice_arg, sg_volt, check_popt, listArgmax, pyTrim,
      rsmooth, np_gradient, List.range_succ]
  exact ⟨h, set_dfunc_mirror_palindrome _ _ _ _ _ _ h⟩

set_option maxHeartbeats 2000000 in
/-- C5 counterexample: joining the identical one-sided curves `Dc` (with
identical voltage axes `Vc`, window 5, 3 smoothing passes, no fit so the raw
argmax fallback picks the splice) gives a distribution function of length 14
whose splice slice has length `nL = 7`; position `nL - 1 = 6` of the returned
arrays carries signed index `-1` and position `nL + 1 = 8` carries signed
index `+1`, and the distribution-function values there differ
(`1059/80 ≠ 979/75`): the result is not symmetric about index 0 (it is
symmetric about `-1/2`, the splice sample being duplicated). -/
theorem set_dfunc_mirror_not_symmetric_at_zero :
    (set_dfunc (fun _ _ => none) Vc Vc Dc Dc 1 5 none 3).1.getD 6 0 = -1 ∧
    (set_dfunc (fun _ _ => none) Vc Vc Dc Dc 1 5 none 3).1.getD 8 0 = 1 ∧
    (set_dfunc (fun _ _ => none) Vc Vc Dc Dc 1 5 none 3).2.1.getD 6 0
      ≠ (set_dfunc (fun _ _ => none) Vc Vc Dc Dc 1 5 none 3).2.1.getD 8 0 := by
  have h1 : smoothModel 5 Dc
      = [((365 : ℚ)/3), 223/2, 102, 83, 66, 51, 38, 27, 18, 11, 6, 7/2, 5/3] := by
    norm_num [smoothModel, Dc, List.range_succ]
  have h2 : smoothModel 5
        [((365 : ℚ)/3), 223/2, 102, 83, 66, 51, 38, 27, 18, 11, 6, 7/2, 5/3]
      = [((2011 : ℚ)/18), 2509/24, 581/6, 827/10, 68, 53, 40, 29, 20, 131/10,
         241/30, 133/24, 67/18] := by
    norm_num [smoothModel, List.range_succ]
  have h3 : smoothModel 5
        [((2011 : ℚ)/18), 2509/24, 581/6, 827/10, 68, 53, 40, 29, 20, 131/10,
         241/30, 133/24, 67/18]
      = [((22543 : ℚ)/216), 142487/1440, 166967/1800, 16203/200, 5108/75,
         2727/50, 42, 1551/50, 1652/75, 3027/200, 18143/1800, 10943/1440,
         6227/1080] := by
    norm_num [smoothModel, List.range_succ]
  have hr : rsmooth Dc 3 5
      = [((22543 : ℚ)/216), 142487/1440, 166967/1800, 16203/200, 5108/75,
         2727/50, 42, 1551/50, 1652/75, 3027/200, 18143/1800, 10943/1440,
         6227/1080] := by
    show smoothModel 5 (smoothModel 5 (smoothModel 5 Dc))
        = [((22543 : ℚ)/216), 142487/1440, 166967/1800, 16203/200, 5108/75,
           2727/50, 42, 1551/50, 1652/75, 3027/200, 18143/1800, 10943/1440,
           6227/1080]
    rw [h1, h2, h3]
  have hg : sg_grad Dc 5 3
      = [((1057 : ℚ)/90), 1775/144, 1059/80, 979/75, 294/25, 749/75,
         3177/400, 4301/720, 91/18] := by
    rw [sg_grad, hr]
    norm_num [pyTrim, np_gradient, List.range_succ]
  have ha : splice_arg (fun _ _ => none) Vc Dc 5 3 = 2 := by
    rw [splice_arg]
    show check_popt none (sg_grad Dc 5 3) (sg_volt Vc Dc 5) = 2
    rw [show check_popt none (sg_grad Dc 5 3) (sg_volt Vc Dc 5)
          = listArgmax (sg_grad Dc 5 3) from rfl, hg]
    norm_num [listArgmax, List.range_succ]
  have hv : sg_volt Vc Dc 5 = [(2 : ℚ), 3, 4, 5, 6, 7, 8, 9, 10] := by
    norm_num [sg_volt, pyTrim, Vc, Dc, List.range_succ]
  have hs : set_dfunc (fun _ _ => none) Vc Vc Dc Dc 1 5 none 3
      = ([(-7 : ℤ), -6, -5, -4, -3, -2, -1, 0, 1, 2, 3, 4, 5, 6],
         [((91 : ℚ)/18), 4301/720, 3177/400, 749/75, 294/25, 979/75, 1059/80,
          1059/80, 979/75, 294/25, 749/75, 3177/400, 4301/720, 91/18],
         [(-6 : ℚ), -5, -4, -3, -2, -1, 0, 0, 1, 2, 3, 4, 5, 6]) := by
    simp only [set_dfunc, Option.getD_none, hg, ha, hv]
    norm_num [List.range_succ]
  rw [hs]
  refine ⟨by norm_num, by norm_num, by norm_num⟩


/-! ### Energy-integral ion-temperature estimate (`enint`, rfea.py 751-756) -/

theorem zip_filter_sum (g : ℚ × ℚ → ℝ) :
    ∀ (volt dfunc : List ℚ), volt.length = dfunc.length →
      (((volt.zip dfunc).filter fun p => p.1 ≠ 0).map g).sum
        = ∑ i ∈ Finset.range volt.length,
            if volt.getD i 0 ≠ 0 then g (volt.getD i 0, dfunc.getD i 0) else 0
  | [], [], _ => by simp
  | [], _ :: _, h => by simp at h
  | _ :: _, [], h => by simp at h
  | a :: as, b :: bs, h => by
      have ih := zip_filter_sum g as bs (by simpa using h)
      simp only [List.zip_cons_cons, List.length_cons]
      rw [Finset.sum_range_succ']
      simp only [List.getD_cons_succ, List.getD_cons_zero]
      by_cases ha : a ≠ 0
      · rw [List.filter_cons_of_pos (by simpa using ha), List.map_cons,
          List.sum_cons, ih, if_pos ha]
        ring
      · rw [List.filter_cons_of_neg (by simpa using ha), ih, if_neg ha,
          add_zero]

/-- C6: for every voltage axis and distribution function of equal length,
`enint` returns exactly `Σ(f·√|V|) / Σ(f/√|V|)`, both sums ranging over
precisely the samples whose voltage is nonzero.  The division is the raw
(total) one: a zero denominator is not guarded against and no exception is
raised — the embedding's `enint` is a total function whose value is always
this quotient, matching numpy's silent `inf`/`nan` there. -/
theorem enint_spec (volt dfunc : List ℚ) (h : volt.length = dfunc.length) :
    enint volt dfunc
      = (∑ i ∈ Finset.range volt.length,
          if volt.getD i 0 ≠ 0 then
            (dfunc.getD i 0 : ℝ) * Real.sqrt |(volt.getD i 0 : ℝ)| else 0)
        / (∑ i ∈ Finset.range volt.length,
          if volt.getD i 0 ≠ 0 then
            (dfunc.getD i 0 : ℝ) / Real.sqrt |(volt.getD i 0 : ℝ)| else 0) := by
  simp only [enint]
  rw [zip_filter_sum (fun p => (p.2 : ℝ) * Real.sqrt |(p.1 : ℝ)|) volt dfunc h,
    zip_filter_sum (fun p => (p.2 : ℝ) / Real.sqrt |(p.1 : ℝ)|) volt dfunc h]

/-- Witness for C6: on `V = [1, 0, 4]`, `f = [2, 5, 3]` the zero-voltage
sample is excluded and `enint = (2·1 + 3·2)/(2/1 + 3/2) = 16/7`. -/
theorem enint_spec_witness :
    ([(1 : ℚ), 0, 4].length = [(2 : ℚ), 5, 3].length) ∧
    enint [(1 : ℚ), 0, 4] [(2 : ℚ), 5, 3] = 16 / 7 := by
  refine ⟨rfl, ?_⟩
  have h := enint_spec [(1 : ℚ), 0, 4] [(2 : ℚ), 5, 3] rfl
  have h4 : Real.sqrt 4 = 2 := by
    rw [show (4 : ℝ) = (2 : ℝ) ^ 2 by norm_num, Real.sqrt_sq (by norm_num)]
  rw [h]
  simp [Finset.sum_range_succ]
  norm_num [h4]

/-! ### Smoothing identities (`rsmooth`, rfea.py 991-996, and the spec's
`smooth` contract) -/

/-- C7: smoothing with `repeat = 0` is the identity (`rsmooth` never enters
its loop), and smoothing with window size 1 is the identity (each averaging
window holds exactly the sample itself). -/
theorem smoothing_identity (s : List ℚ) (nwindow : ℕ) :
    rsmooth s 0 nwindow = s ∧ smoothModel 1 s = s := by
  refine ⟨rfl, ?_⟩
  apply List.ext_getElem
  · simp [smoothModel]
  · intro i h1 h2
    simp only [smoothModel, List.getElem_map, List.getElem_range]
    have hi : i < s.length := by simpa [smoothModel] using h2
    have h0 : (1 : ℕ) / 2 = 0 := rfl
    rw [h0]
    have hmin : min (i + 0) (s.length - 1) = i := by omega
    rw [hmin, Nat.sub_zero]
    have hone : i + 1 - i = 1 := by omega
    rw [hone, List.drop_eq_getElem_cons hi, List.take_succ_cons,
      List.take_zero]
    norm_num

/-! ### File locator (`fname_tds.py`) -/

/-- C8: for every run identifier not present in the lookup table,
`fname_tds` returns the not-found signal `none` (the source prints and falls
through without raising); for every identifier present in the table it
returns `some` filesystem path. -/
theorem fname_tds_lookup (host : String) (callnumber : FKey) (full old : ℕ) :
    ((∀ e ∈ filenames, e.1 ≠ callnumber) →
      fname_tds host callnumber full old = none) ∧
    (∀ e ∈ filenames, e.1 = callnumber →
      ∃ path, fname_tds host callnumber full old = some path) := by
  constructor
  · intro habs
    unfold fname_tds
    have hfind : filenames.find? (fun e => e.1 = callnumber) = none := by
      rw [List.find?_eq_none]
      intro e he
      simpa using habs e he
    rw [hfind]
  · intro e he heq
    cases hfind : filenames.find? (fun e => e.1 = callnumber) with
    | none =>
        rw [List.find?_eq_none] at hfind
        exact absurd (by simpa using heq) (by simpa using hfind e he)
    | some a =>
        have hdisp : fname_tds host callnumber full old =
            if full = 0 then some a.2.2
            else if a.2.1 = dirA then some (a.2.1 ++ a.2.2)
            else some ((if host = "midas" then
                  (if old = 1 then "/data_old" else "/data")
                else (if old = 1 then "/data" else "/data_new"))
              ++ a.2.1 ++ a.2.2) := by
          unfold fname_tds
          rw [hfind]
        rw [hdisp]
        by_cases h0 : full = 0
        · exact ⟨_, by rw [if_pos h0]⟩
        · rw [if_neg h0]
          by_cases h1 : a.2.1 = dirA
          · exact ⟨_, by rw [if_pos h1]⟩
          · exact ⟨_, by rw [if_neg h1]⟩

set_option maxRecDepth 40000 in
/-- Witness for C8: the key `test` is in the table and resolves to a path;
the integer key 999 is absent and resolves to `none`. -/
theorem fname_tds_lookup_witness :
    (∃ path, fname_tds ("midas") (FKey.s ("test")) 1 0 = some path) ∧
    fname_tds ("midas") (FKey.i 999) 1 0 = none :=
  ⟨(fname_tds_lookup ("midas") (FKey.s ("test")) 1 0).2
      (FKey.s ("test"), dirS,
        "I75_V100_Bz330_B24_B45_M35_Plane_2014_05_24_926AM.hdf5")
      (List.mem_cons_self _ _) rfl,
    (fname_tds_lookup ("midas") (FKey.i 999) 1 0).1 (by decide)⟩

theorem set_time_frame (p : params) (a b c d : Option ℤ) :
    ((∀ v, a = some v → (set_time p a b c d).t1 = some v) ∧
      (a = none → (set_time p a b c d).t1 = p.t1)) ∧
    ((∀ v, b = some v → (set_time p a b c d).t2 = some v) ∧
      (b = none → (set_time p a b c d).t2 = p.t2)) ∧
    ((∀ v, c = some v → (set_time p a b c d).bt1 = some v) ∧
      (c = none → (set_time p a b c d).bt1 = p.bt1)) ∧
    ((∀ v, d = some v → (set_time p a b c d).bt2 = some v) ∧
      (d = none → (set_time p a b c d).bt2 = p.bt2)) ∧
    ((set_time p a b c d).fid = p.fid ∧
     (set_time p a b c d).fname = p.fname ∧
     (set_time p a b c d).nsteps = p.nsteps ∧
     (set_time p a b c d).nshots = p.nshots ∧
     (set_time p a b c d).res = p.res ∧
     (set_time p a b c d).ch_volt = p.ch_volt ∧
     (set_time p a b c d).ch_curr = p.ch_curr ∧
     (set_time p a b c d).ch_bdot = p.ch_bdot ∧
     (set_time p a b c d).f_bint = p.f_bint ∧
     (set_time p a b c d).volt = p.volt ∧
     (set_time p a b c d).time = p.time ∧
     (set_time p a b c d).xpos = p.xpos ∧
     (set_time p a b c d).ypos = p.ypos ∧
     (set_time p a b c d).tarr = p.tarr ∧
     (set_time p a b c d).nt = p.nt ∧
     (set_time p a b c d).dt = p.dt) := by
  refine ⟨⟨?_, ?_⟩, ⟨?_, ?_⟩, ⟨?_, ?_⟩, ⟨?_, ?_⟩, ?_⟩ <;>
    first
      | (intro v hv; subst hv; rfl)
      | (intro hv; subst hv; rfl)
      | exact ⟨rfl, rfl, rfl, rfl, rfl, rfl, rfl, rfl, rfl, rfl, rfl, rfl,
          rfl, rfl, rfl, rfl⟩

theorem condavg_defaults_spec (p : params) (n : ℕ) :
    ((p.t1 = none ∧ p.t2 = none) →
        (condavgDefaults p n).t1 = some 0 ∧
        (condavgDefaults p n).t2 = some (n : ℤ)) ∧
    (¬(p.t1 = none ∧ p.t2 = none) →
        (condavgDefaults p n).t1 = p.t1 ∧ (condavgDefaults p n).t2 = p.t2) ∧
    ((p.bt1 = none ∧ p.bt2 = none) →
        (condavgDefaults p n).bt1 = (condavgDefaults p n).t1 ∧
        (condavgDefaults p n).bt2 = (condavgDefaults p n).t2) ∧
    (¬(p.bt1 = none ∧ p.bt2 = none) →
        (condavgDefaults p n).bt1 = p.bt1 ∧
        (condavgDefaults p n).bt2 = p.bt2) ∧
    ((condavgDefaults p n).fid = p.fid ∧
     (condavgDefaults p n).nsteps = p.nsteps ∧
     (condavgDefaults p n).nshots = p.nshots ∧
     (condavgDefaults p n).res = p.res ∧
     (condavgDefaults p n).volt = p.volt ∧
     (condavgDefaults p n).nt = p.nt ∧
     (condavgDefaults p n).tarr = p.tarr) ∧
    (∀ m, condavgDefaults (condavgDefaults p n) m = condavgDefaults p n) := by
  by_cases ht : p.t1 = none ∧ p.t2 = none <;>
    by_cases hb : p.bt1 = none ∧ p.bt2 = none <;>
    simp [condavgDefaults, ht, hb]

theorem set_time_frame_witness :
    (set_time paramsW (some 5) none (some 8) none).t1 = some 5 ∧
    (set_time paramsW (some 5) none (some 8) none).t2 = paramsW.t2 ∧
    (set_time paramsW (some 5) none (some 8) none).bt1 = some 8 ∧
    (set_time paramsW (some 5) none (some 8) none).bt2 = paramsW.bt2 ∧
    (set_time paramsW (some 5) none (some 8) none).nshots = paramsW.nshots := by
  have h := set_time_frame paramsW (some 5) none (some 8) none
  exact ⟨h.1.1 5 rfl, h.2.1.2 rfl, h.2.2.1.1 8 rfl, h.2.2.2.1.2 rfl,
    h.2.2.2.2.2.2.2.1⟩

theorem condavg_defaults_spec_witness :
    ¬(paramsW.t1 = none ∧ paramsW.t2 = none) ∧
    (paramsW.bt1 = none ∧ paramsW.bt2 = none) ∧
    (condavgDefaults paramsW 100).t1 = paramsW.t1 ∧
    (condavgDefaults paramsW 100).t2 = paramsW.t2 ∧
    (condavgDefaults paramsW 100).bt1 = (condavgDefaults paramsW 100).t1 ∧
    (condavgDefaults paramsW 100).bt2 = (condavgDefaults paramsW 100).t2 ∧
    condavgDefaults (condavgDefaults paramsW 100) 55
      = condavgDefaults paramsW 100 := by
  have h := condavg_defaults_spec paramsW 100
  have hnt : ¬(paramsW.t1 = none ∧ paramsW.t2 = none) := by simp [paramsW]
  have hbt : paramsW.bt1 = none ∧ paramsW.bt2 = none := ⟨rfl, rfl⟩
  exact ⟨hnt, hbt, (h.2.1 hnt).1, (h.2.1 hnt).2, (h.2.2.1 hbt).1,
    (h.2.2.1 hbt).2, h.2.2.2.2.2 55⟩
